import Mathlib

/-!
Shallow embedding of the esb-bridge-client core:
`internal/usbprotocol/usbprotocol.go` (packet transport, correlation
dispatcher, transaction engine) and `pkg/esbbridge` (envelope router and
bridge gateway).  Bytes are modelled as `Nat` values below 256, frames as
`List Nat`, machine truncation as `% 256` / `% 65536`.
-/

/-- packetSize: fixed size of transmitted USB packages (usbprotocol.go). -/
def packetSize : Nat := 64

/-- MaxPayloadLen: 64-byte packet minus 4 header bytes minus 2 CRC bytes. -/
def MaxPayloadLen : Nat := packetSize - 4 - 2

/-- sync byte marking the beginning of a packet (usbprotocol.go, 0x69). -/
def syncVal : Nat := 0x69

/-- One shift-and-conditionally-xor step of CRC-16/CCITT-FALSE
(polynomial 0x1021, MSB first), on a 16-bit accumulator. -/
def crcStep (c : Nat) : Nat :=
  if 0x8000 ≤ c then Nat.xor (c * 2 % 65536) 0x1021 else c * 2 % 65536

/-- Feed one byte into the CRC-16/CCITT-FALSE accumulator: xor the byte into
the high accumulator byte, then run eight polynomial steps. -/
def crcByte (c b : Nat) : Nat := crcStep^[8] (Nat.xor c (b % 256 * 256))

/-- CRC-16/CCITT-FALSE of a byte sequence, initial value 0xFFFF, no
reflection, no final xor — the table `crc16.MakeTable(crc16.CRC16_CCITT_FALSE)`
used by `crc16.Checksum` in usbprotocol.go. -/
def crc16 (data : List Nat) : Nat := data.foldl crcByte 0xFFFF

/-- First 62 bytes of the outbound frame built by usbprotocol `Transfer`:
sync, command, status fixed to 0, payload length, payload copied at offset 4
into the zero-initialised 64-byte buffer (so padded with trailing zeros
through byte 61). -/
def txBody (cmd : Nat) (payload : List Nat) : List Nat :=
  syncVal :: cmd % 256 :: 0 :: payload.length % 256 ::
    (payload ++ List.replicate (MaxPayloadLen - payload.length) 0)

/-- Full 64-byte outbound frame of usbprotocol `Transfer`: body followed by
the CRC-16/CCITT-FALSE of bytes 0–61 stored little-endian
(txBuf[62] = crc & 0xff, txBuf[63] = crc >> 8). -/
def mkTxFrame (cmd : Nat) (payload : List Nat) : List Nat :=
  txBody cmd payload ++ [crc16 (txBody cmd payload) % 256,
                         crc16 (txBody cmd payload) / 256 % 256]

/-- Message reconstructed from an inbound frame (usbprotocol `message`):
command, error byte, payload. -/
structure Message where
  cmd : Nat
  err : Nat
  payload : List Nat
deriving DecidableEq, Repr

/-- Go slice expression `l[lo:hi]` on a 64-byte array: defined exactly when
`lo ≤ hi ≤ len`, otherwise the Go program panics. -/
def sliceGo (l : List Nat) (lo hi : Nat) : Option (List Nat) :=
  if lo ≤ hi ∧ hi ≤ l.length then some ((l.drop lo).take (hi - lo)) else none

/-- Outcome of one read-loop iteration in `serialReaderThread`: the frame is
silently discarded, or the Go slice `rxBuf[4 : 4+payloadLen]` panics, or a
message is delivered to the dispatcher channel. -/
inductive ReadResult where
  | dropped
  | panicked
  | delivered (m : Message)
deriving DecidableEq, Repr

/-- One iteration of `serialReaderThread` on the bytes read: discard unless
exactly 64 bytes arrived, byte 0 is the sync value, and the CRC-16 over
bytes 0–61 equals the little-endian word in bytes 62–63; then extract
`rxBuf[4 : 4+payloadLen]` with `payloadLen = rxBuf[3]` and deliver. -/
def serialReadFrame (frame : List Nat) : ReadResult :=
  if frame.length ≠ packetSize then .dropped
  else if frame.getD 0 0 ≠ syncVal then .dropped
  else if crc16 (frame.take 62) ≠ frame.getD 62 0 + 256 * frame.getD 63 0 then .dropped
  else
    match sliceGo frame 4 (4 + frame.getD 3 0) with
    | none => .panicked
    | some pl => .delivered ⟨frame.getD 1 0, frame.getD 2 0, pl⟩

/-- Callback registration of the dispatcher (usbprotocol `callback`): a
command identifier paired with a handler, identified here by a tag so the
invocation trace can record which handler ran. -/
structure Callback where
  cmd : Nat
  tag : Nat
deriving DecidableEq, Repr

/-- The callback loop body of usbprotocol `receive`: fold over the registered
callbacks in order, invoking (recording) every one whose command equals the
message command and clearing the `isAnswer` flag on each match.  Returns the
invocation trace and the final `isAnswer` flag. -/
def dispatchMsg (callbacks : List Callback) (msg : Message) :
    List (Nat × Nat × List Nat) × Bool :=
  callbacks.foldl
    (fun acc cb =>
      if cb.cmd == msg.cmd then (acc.1 ++ [(cb.tag, msg.err, msg.payload)], false)
      else acc)
    ([], true)

/-- What happens to an inbound frame after the callback loop of `receive`:
either some callback consumed it (`isAnswer` false), or it is sent on
`ansChannel`.  `ansChannel` is unbuffered, so the send completes only when a
`Transfer` caller is waiting in its `select`; with no pending transaction the
dispatcher goroutine blocks on the send, holding the frame. -/
inductive AfterDispatch where
  | noForward
  | forwarded
  | blocked
  | droppedSpec
deriving DecidableEq, Repr

/-- One dispatcher iteration of usbprotocol `receive` on a message, given
whether a `Transfer` caller is currently waiting on `ansChannel`: the
invocation trace plus the fate of the frame, as the code behaves. -/
def receiveStep (callbacks : List Callback) (pending : Bool) (msg : Message) :
    List (Nat × Nat × List Nat) × AfterDispatch :=
  let d := dispatchMsg callbacks msg
  (d.1, if d.2 then (if pending then .forwarded else .blocked) else .noForward)

/-- Modelled from the spec: the dispatcher behaviour the specification
describes in its step 2 — when no callback consumed the frame and no
transaction is pending, the frame is dropped and the loop continues
(instead of blocking on the unbuffered answer channel as the code does). -/
def receiveStepSpec (callbacks : List Callback) (pending : Bool) (msg : Message) :
    List (Nat × Nat × List Nat) × AfterDispatch :=
  let d := dispatchMsg callbacks msg
  (d.1, if d.2 then (if pending then .forwarded else .droppedSpec) else .noForward)

/-- Error values of usbprotocol (`UsbError` with its `ErrCode`). -/
inductive UsbErr where
  | errSize
  | errCmdMismatch
  | errSerial
  | errTimeout
  | errParam
deriving DecidableEq, Repr

/-- The answer-or-timeout tail of usbprotocol `Transfer` (its `select`): on
an answer whose command differs from the request, return
`(0, nil, ErrCmdMismatch)`; on a matching answer return its error byte and
payload; on timeout return `(0, nil, ErrTimeout)`.  `none` models the
timeout arm firing. -/
def transferReceive (cmd : Nat) (answer : Option Message) :
    Nat × Option (List Nat) × Option UsbErr :=
  match answer with
  | some a => if a.cmd ≠ cmd then (0, none, some .errCmdMismatch)
              else (a.err, some a.payload, none)
  | none => (0, none, some .errTimeout)

/-- Residual transport state between sequential `Transfer` calls: `stalled`
is the frame the dispatcher goroutine is blocked sending on the unbuffered
`ansChannel` (present only when a non-callback frame arrived while no
transaction was pending). -/
structure ChanState where
  stalled : Option Message
deriving DecidableEq, Repr

/-- One sequential `Transfer` call against the channel state: a caller that
reaches the `select` first completes the dispatcher's blocked send if one is
stalled, receiving the stale frame; otherwise it receives the answer frame
arriving during its window, or times out.  Either way the blocked send (if
any) is consumed, so the state afterwards holds no stalled frame. -/
def doTransfer (s : ChanState) (cmd : Nat) (arriving : Option Message) :
    ChanState × (Nat × Option (List Nat) × Option UsbErr) :=
  match s.stalled with
  | some m => (⟨none⟩, transferReceive cmd (some m))
  | none => (⟨none⟩, transferReceive cmd arriving)

/-- Progress of one `Transfer` caller: not yet started, waiting in the
`select` after writing its request frame (a pending transaction), or
finished with a result. -/
inductive Phase where
  | idle
  | pending
  | finished (r : Nat × Option (List Nat) × Option UsbErr)
deriving DecidableEq, Repr

/-- Joint state of two concurrent `Transfer` callers A and B. -/
structure TwoCallers where
  pa : Phase
  pb : Phase
deriving DecidableEq, Repr

/-- Interleaving steps available to two concurrent usbprotocol `Transfer`
callers with request commands `acmd` and `bcmd`.  The function contains no
lock: each caller independently writes its frame and enters the `select`, and
a reply surfacing on the shared unbuffered `ansChannel` is received by
whichever pending caller the runtime picks; a pending caller may also time
out. -/
inductive TwoStep (acmd bcmd : Nat) : TwoCallers → TwoCallers → Prop where
  | startA (pb : Phase) : TwoStep acmd bcmd ⟨.idle, pb⟩ ⟨.pending, pb⟩
  | startB (pa : Phase) : TwoStep acmd bcmd ⟨pa, .idle⟩ ⟨pa, .pending⟩
  | deliverA (pb : Phase) (m : Message) :
      TwoStep acmd bcmd ⟨.pending, pb⟩ ⟨.finished (transferReceive acmd (some m)), pb⟩
  | deliverB (pa : Phase) (m : Message) :
      TwoStep acmd bcmd ⟨pa, .pending⟩ ⟨pa, .finished (transferReceive bcmd (some m))⟩
  | timeoutA (pb : Phase) :
      TwoStep acmd bcmd ⟨.pending, pb⟩ ⟨.finished (transferReceive acmd none), pb⟩
  | timeoutB (pa : Phase) :
      TwoStep acmd bcmd ⟨pa, .pending⟩ ⟨pa, .finished (transferReceive bcmd none)⟩

/-- Reachability of the two-caller system from both callers idle. -/
def TwoReach (acmd bcmd : Nat) (s : TwoCallers) : Prop :=
  Relation.ReflTransGen (TwoStep acmd bcmd) ⟨.idle, .idle⟩ s

/-- AddressSize: size of ESB pipeline addresses (esbbridge, 5 bytes). -/
def AddressSize : Nat := 5

/-- MaxPayloadSize: maximum ESB message payload (esbbridge, 32 bytes). -/
def MaxPayloadSize : Nat := 32

/-- UsbCmdVersion: get firmware version (esbbridge, 0x10). -/
def UsbCmdVersion : Nat := 0x10

/-- UsbCmdTransfer: send an ESB message and wait for a reply (esbbridge, 0x30). -/
def UsbCmdTransfer : Nat := 0x30

/-- UsbCmdRx: callback command for incoming ESB messages (esbbridge, 0x81). -/
def UsbCmdRx : Nat := 0x81

/-- EsbMessage: message between ESB devices (esbbridge): 5-byte source
address, command byte, payload. -/
structure EsbMessage where
  address : List Nat
  cmd : Nat
  payload : List Nat
deriving DecidableEq, Repr

/-- Listener of the envelope router (esbbridge `listener`): a 5-byte source
address filter (all zeros = wildcard), a command filter (0xFF = wildcard);
the delivery channel is identified by the listener's position in the
registration list. -/
structure Listener where
  sourceAddr : List Nat
  cmd : Nat
deriving DecidableEq, Repr

/-- The match condition of `rxCallbackThread` in esbbridge: the listener's
command filter is 0xFF or equals the message command, and its source filter
equals the message address or is the all-zero wildcard
(`bytes.Compare(l.sourceAddr[:], make([]byte, 5)) == 0`). -/
def listenerMatches (l : Listener) (m : EsbMessage) : Bool :=
  (l.cmd == 0xFF || l.cmd == m.cmd) &&
    (l.sourceAddr == m.address || l.sourceAddr == List.replicate 5 0)

/-- Decode the ESB envelope from a usb message payload of length ≥ 6, as
`rxCallbackThread` does: address = payload[:5], cmd = payload[5],
payload = payload[6:] when longer than 6 bytes, else empty. -/
def decodeEnvelope (p : List Nat) : EsbMessage :=
  ⟨p.take 5, p.getD 5 0, if 6 < p.length then p.drop 6 else []⟩

/-- The delivery loop of `rxCallbackThread`: send the decoded message to
every registered listener whose filters match, in registration order.  A
delivery is recorded as (listener index, message). -/
def sendToListeners (ls : List Listener) (m : EsbMessage) : List (Nat × EsbMessage) :=
  (ls.enum.filter (fun p => listenerMatches p.2 m)).map (fun p => (p.1, m))

/-- The esbbridge `rxCallbackThread` loop over a stream of incoming usb
messages: on a payload shorter than 6 bytes the function executes `return`,
terminating the goroutine, so the remaining messages are never processed;
otherwise it decodes the envelope, delivers it to all matching listeners and
continues with the next message. -/
def rxCallbackThread (ls : List Listener) : List Message → List (Nat × EsbMessage)
  | [] => []
  | m :: rest =>
    if m.payload.length < 6 then []
    else sendToListeners ls (decodeEnvelope m.payload) ++ rxCallbackThread ls rest

/-- Connection state of the bridge: the esbbridge package-level `connected`
flag and whether the underlying usbprotocol serial port is open. -/
structure BridgeState where
  connected : Bool
  portOpen : Bool
deriving DecidableEq, Repr

/-- State before any `Open`: not connected, port closed. -/
def bridgeInit : BridgeState := ⟨false, false⟩

/-- Effect of a successful esbbridge `Open`: sets `connected = true` and
opens the port. -/
def bridgeOpenOk (_s : BridgeState) : BridgeState := ⟨true, true⟩

/-- Effect of esbbridge `Close`: calls `usbprotocol.Close()`, closing the
port; the `connected` flag is not touched. -/
def bridgeClose (s : BridgeState) : BridgeState := ⟨s.connected, false⟩

/-- Result of the argument-checking prefix of esbbridge `Transfer`: one of
the early errors, or the usb request message handed to
`usbprotocol.Transfer`. -/
inductive EsbTransferResult where
  | notConnected
  | nilPayload
  | tooLong
  | tooShort
  | sendReq (m : Message)
deriving DecidableEq, Repr

/-- The guard-and-build prefix of esbbridge `Transfer`: fail when not
connected, when the payload is nil, longer than 32, or shorter than 1;
otherwise build the usb request with command `UsbCmdTransfer` and payload =
target address followed by the application payload. -/
def esbTransferBuild (connected : Bool) (targetAddr : List Nat)
    (payload : Option (List Nat)) : EsbTransferResult :=
  if !connected then .notConnected
  else
    match payload with
    | none => .nilPayload
    | some p =>
      if p.length > MaxPayloadSize then .tooLong
      else if p.length < 1 then .tooShort
      else .sendReq ⟨UsbCmdTransfer, 0, targetAddr ++ p⟩

/-- The `connected` guard shared by esbbridge `Transfer` and `GetFwVersion`:
true when the call fails fast with the not-connected error. -/
def notConnectedGuard (s : BridgeState) : Bool := !s.connected

/-- A 62-byte frame body whose length byte (byte 3) is 59, above the 58-byte
payload ceiling, with valid sync byte. -/
def forgedBody : List Nat := syncVal :: 0x30 :: 0 :: 59 :: List.replicate 58 0

/-- The forged body completed with its correct little-endian CRC: a 64-byte
frame that passes every check of the read loop while carrying a
payload-length byte of 59. -/
def forgedFrame : List Nat :=
  forgedBody ++ [crc16 forgedBody % 256, crc16 forgedBody / 256 % 256]

/-- Payload length carried by a delivered read result (0 otherwise). -/
def payloadLenOf : ReadResult → Nat
  | .delivered m => m.payload.length
  | _ => 0



theorem crcStep_lt (c : Nat) : crcStep c < 65536 := by
  unfold crcStep
  split
  · have h1 : c * 2 % 65536 < 65536 := Nat.mod_lt _ (by norm_num)
    have h2 : (0x1021 : Nat) < 65536 := by norm_num
    have h3 : (65536 : Nat) = 2 ^ 16 := by norm_num
    rw [h3] at h1 h2 ⊢
    exact Nat.xor_lt_two_pow h1 h2
  · exact Nat.mod_lt _ (by norm_num)

theorem crcByte_lt (c b : Nat) : crcByte c b < 65536 := by
  unfold crcByte
  rw [show (8 : Nat) = 7 + 1 from rfl, Function.iterate_succ_apply']
  exact crcStep_lt _

theorem crc16_lt (data : List Nat) : crc16 data < 65536 := by
  unfold crc16
  suffices h : ∀ init : Nat, init < 65536 → data.foldl crcByte init < 65536 from
    h 0xFFFF (by norm_num)
  induction data with
  | nil => intro init h; simpa using h
  | cons a l ih => intro init _; simpa using ih (crcByte init a) (crcByte_lt init a)

theorem getD_replicate_zero (n k : Nat) : (List.replicate n (0 : Nat)).getD k 0 = 0 := by
  induction n generalizing k with
  | zero => simp [List.getD]
  | succ n ih =>
    cases k with
    | zero => simp [List.replicate]
    | succ k => simp only [List.replicate, List.getD_cons_succ]; exact ih k

theorem serialReadFrame_append (body : List Nat) (x y : Nat) (h62 : body.length = 62)
    (hsync : body.getD 0 0 = syncVal) (hlen : body.getD 3 0 ≤ 60)
    (hxy : crc16 body = x + 256 * y) :
    serialReadFrame (body ++ [x, y]) =
      .delivered ⟨body.getD 1 0, body.getD 2 0,
        (((body ++ [x, y]).drop 4).take (body.getD 3 0))⟩ := by
  have e1 : (body ++ [x, y]).length = 64 := by simp [h62]
  have e0 : (body ++ [x, y]).getD 0 0 = syncVal := by
    rw [List.getD_append _ _ _ 0 (by omega)]; exact hsync
  have eh1 : (body ++ [x, y]).getD 1 0 = body.getD 1 0 :=
    List.getD_append _ _ _ 1 (by omega)
  have eh2 : (body ++ [x, y]).getD 2 0 = body.getD 2 0 :=
    List.getD_append _ _ _ 2 (by omega)
  have eh3 : (body ++ [x, y]).getD 3 0 = body.getD 3 0 :=
    List.getD_append _ _ _ 3 (by omega)
  have etake : (body ++ [x, y]).take 62 = body := List.take_left' h62
  have e62 : (body ++ [x, y]).getD 62 0 = x := by
    rw [List.getD_append_right _ _ _ _ (by omega), h62]
    norm_num [List.getD]
  have e63 : (body ++ [x, y]).getD 63 0 = y := by
    rw [List.getD_append_right _ _ _ _ (by omega), h62]
    norm_num [List.getD]
  have ecrc : crc16 ((body ++ [x, y]).take 62) =
      (body ++ [x, y]).getD 62 0 + 256 * (body ++ [x, y]).getD 63 0 := by
    rw [etake, e62, e63, hxy]
  have eidx : 4 + (body ++ [x, y]).getD 3 0 - 4 = (body ++ [x, y]).getD 3 0 := by omega
  have hslice : sliceGo (body ++ [x, y]) 4 (4 + (body ++ [x, y]).getD 3 0) =
      some (((body ++ [x, y]).drop 4).take ((body ++ [x, y]).getD 3 0)) := by
    unfold sliceGo
    rw [if_pos ⟨by omega, by rw [e1]; omega⟩, eidx]
  unfold serialReadFrame
  rw [if_neg (not_ne_iff.mpr (by rw [e1]; rfl)), if_neg (not_ne_iff.mpr e0),
    if_neg (not_ne_iff.mpr ecrc), hslice]
  show ReadResult.delivered
      ⟨(body ++ [x, y]).getD 1 0, (body ++ [x, y]).getD 2 0,
        ((body ++ [x, y]).drop 4).take ((body ++ [x, y]).getD 3 0)⟩ = _
  rw [eh1, eh2, eh3]

theorem mkTxFrame_read (cmd : Nat) (payload : List Nat) (h58 : payload.length ≤ 58) :
    serialReadFrame (mkTxFrame cmd payload) = .delivered ⟨cmd % 256, 0, payload⟩ := by
  have hb62 : (txBody cmd payload).length = 62 := by
    simp only [txBody, List.length_cons, List.length_append, List.length_replicate,
      MaxPayloadLen, packetSize]
    omega
  have h3 : (txBody cmd payload).getD 3 0 = payload.length := by
    show payload.length % 256 = payload.length
    exact Nat.mod_eq_of_lt (by omega)
  have hdivlt : crc16 (txBody cmd payload) / 256 < 256 :=
    Nat.div_lt_of_lt_mul (by have := crc16_lt (txBody cmd payload); omega)
  have hxy : crc16 (txBody cmd payload) =
      crc16 (txBody cmd payload) % 256 + 256 * (crc16 (txBody cmd payload) / 256 % 256) := by
    rw [Nat.mod_eq_of_lt hdivlt, Nat.mod_add_div]
  have hmain := serialReadFrame_append (txBody cmd payload)
    (crc16 (txBody cmd payload) % 256) (crc16 (txBody cmd payload) / 256 % 256)
    hb62 rfl (by rw [h3]; omega) hxy
  have hex : ((txBody cmd payload ++
        [crc16 (txBody cmd payload) % 256, crc16 (txBody cmd payload) / 256 % 256]).drop 4).take
      ((txBody cmd payload).getD 3 0) = payload := by
    rw [h3]
    show ((payload ++ List.replicate (MaxPayloadLen - payload.length) 0) ++
      [crc16 (txBody cmd payload) % 256, crc16 (txBody cmd payload) / 256 % 256]).take
        payload.length = payload
    rw [List.append_assoc]
    exact List.take_left' rfl
  show serialReadFrame (txBody cmd payload ++
    [crc16 (txBody cmd payload) % 256, crc16 (txBody cmd payload) / 256 % 256]) = _
  rw [hmain, hex]
  rfl

theorem mkTxFrame_getD_body (cmd : Nat) (payload : List Nat) (i : Nat) :
    (mkTxFrame cmd payload).getD (4 + i) 0 =
      ((payload ++ List.replicate (MaxPayloadLen - payload.length) 0) ++
        [crc16 (txBody cmd payload) % 256, crc16 (txBody cmd payload) / 256 % 256]).getD i 0 := by
  show (syncVal :: cmd % 256 :: 0 :: payload.length % 256 ::
      ((payload ++ List.replicate (MaxPayloadLen - payload.length) 0) ++
        [crc16 (txBody cmd payload) % 256, crc16 (txBody cmd payload) / 256 % 256])).getD
      (4 + i) 0 = _
  have h4 : 4 + i = i + 1 + 1 + 1 + 1 := by omega
  rw [h4]
  simp only [List.getD_cons_succ]

theorem mkTxFrame_getD_payload (cmd : Nat) (payload : List Nat) (i : Nat)
    (hi : i < payload.length) :
    (mkTxFrame cmd payload).getD (4 + i) 0 = payload.getD i 0 := by
  rw [mkTxFrame_getD_body, List.append_assoc, List.getD_append _ _ _ _ hi]

theorem mkTxFrame_getD_pad (cmd : Nat) (payload : List Nat) (i : Nat)
    (hlo : payload.length ≤ i) (hhi : i < 58) :
    (mkTxFrame cmd payload).getD (4 + i) 0 = 0 := by
  rw [mkTxFrame_getD_body, List.append_assoc, List.getD_append_right _ _ _ _ hlo,
    List.getD_append _ _ _ _ (by
      rw [List.length_replicate, show MaxPayloadLen = 58 from rfl]
      omega)]
  exact getD_replicate_zero _ _

theorem mkTxFrame_length (cmd : Nat) (payload : List Nat) (h58 : payload.length ≤ 58) :
    (mkTxFrame cmd payload).length = 64 := by
  rw [mkTxFrame, List.length_append, txBody]
  simp only [List.length_cons, List.length_nil, List.length_append, List.length_replicate,
    show MaxPayloadLen = 58 from rfl]
  omega

theorem mkTxFrame_take62 (cmd : Nat) (payload : List Nat) (h58 : payload.length ≤ 58) :
    (mkTxFrame cmd payload).take 62 = txBody cmd payload := by
  refine List.take_left' ?_
  simp only [txBody, List.length_cons, List.length_append, List.length_replicate,
    show MaxPayloadLen = 58 from rfl]
  omega

theorem mkTxFrame_getD_crc (cmd : Nat) (payload : List Nat) (h58 : payload.length ≤ 58) :
    (mkTxFrame cmd payload).getD 62 0 = crc16 (txBody cmd payload) % 256 ∧
    (mkTxFrame cmd payload).getD 63 0 = crc16 (txBody cmd payload) / 256 % 256 := by
  have hb62 : (txBody cmd payload).length = 62 := by
    simp only [txBody, List.length_cons, List.length_append, List.length_replicate,
      show MaxPayloadLen = 58 from rfl]
    omega
  constructor
  · show (txBody cmd payload ++ _).getD 62 0 = _
    rw [List.getD_append_right _ _ _ _ (by omega), hb62]
    norm_num [List.getD]
  · show (txBody cmd payload ++ _).getD 63 0 = _
    rw [List.getD_append_right _ _ _ _ (by omega), hb62]
    norm_num [List.getD]

/-- C1: for every command identifier and every payload of length at most 58,
the frame built by the send path of usbprotocol `Transfer` passes the read
loop's length, sync and CRC checks, and the extracted message carries the
identical command, a zero status byte, and the identical payload. -/
theorem usb_send_read_roundtrip (cmd : Nat) (payload : List Nat)
    (hc : cmd < 256) (h58 : payload.length ≤ 58) :
    serialReadFrame (mkTxFrame cmd payload) = .delivered ⟨cmd, 0, payload⟩ := by
  rw [mkTxFrame_read cmd payload h58, Nat.mod_eq_of_lt hc]

theorem usb_send_read_roundtrip_witness :
    serialReadFrame (mkTxFrame 0x61 [1, 2, 3]) = .delivered ⟨0x61, 0, [1, 2, 3]⟩ :=
  usb_send_read_roundtrip 0x61 [1, 2, 3] (by decide) (by decide)

/-- C2: layout of the outbound frame built by usbprotocol `Transfer`: 64
bytes; byte 0 the sync value 0x69; byte 1 the command; byte 2 zero; byte 3
the payload length; payload left-justified at byte 4 and zero padding through
byte 61; bytes 62 and 63 the CRC-16/CCITT-FALSE of bytes 0 through 61 stored
little-endian; and for command 0x10 with empty payload bytes 4 through 61
are all zero. -/
theorem usb_tx_frame_layout (cmd : Nat) (payload : List Nat)
    (hc : cmd < 256) (h58 : payload.length ≤ 58) :
    (mkTxFrame cmd payload).length = 64 ∧
    (mkTxFrame cmd payload).getD 0 0 = 0x69 ∧
    (mkTxFrame cmd payload).getD 1 0 = cmd ∧
    (mkTxFrame cmd payload).getD 2 0 = 0 ∧
    (mkTxFrame cmd payload).getD 3 0 = payload.length ∧
    (∀ i, i < payload.length → (mkTxFrame cmd payload).getD (4 + i) 0 = payload.getD i 0) ∧
    (∀ i, payload.length ≤ i → i < 58 → (mkTxFrame cmd payload).getD (4 + i) 0 = 0) ∧
    (mkTxFrame cmd payload).getD 62 0 = crc16 ((mkTxFrame cmd payload).take 62) % 256 ∧
    (mkTxFrame cmd payload).getD 63 0 = crc16 ((mkTxFrame cmd payload).take 62) / 256 ∧
    (∀ i, 4 ≤ i → i ≤ 61 → (mkTxFrame 0x10 []).getD i 0 = 0) := by
  have hdivlt : crc16 (txBody cmd payload) / 256 < 256 :=
    Nat.div_lt_of_lt_mul (by have := crc16_lt (txBody cmd payload); omega)
  refine ⟨mkTxFrame_length cmd payload h58, rfl, ?_, rfl, ?_,
    fun i hi => mkTxFrame_getD_payload cmd payload i hi,
    fun i hlo hhi => mkTxFrame_getD_pad cmd payload i hlo hhi, ?_, ?_, ?_⟩
  · show cmd % 256 = cmd
    exact Nat.mod_eq_of_lt hc
  · show payload.length % 256 = payload.length
    exact Nat.mod_eq_of_lt (by omega)
  · rw [mkTxFrame_take62 cmd payload h58]
    exact (mkTxFrame_getD_crc cmd payload h58).1
  · rw [mkTxFrame_take62 cmd payload h58, (mkTxFrame_getD_crc cmd payload h58).2,
      Nat.mod_eq_of_lt hdivlt]
  · intro i h4 h61
    have hi : i = 4 + (i - 4) := by omega
    rw [hi]
    exact mkTxFrame_getD_pad 0x10 [] (i - 4) (by simp) (by omega)

theorem usb_tx_frame_layout_witness :
    (mkTxFrame 0x61 [9, 8]).length = 64 ∧
    (mkTxFrame 0x61 [9, 8]).getD 0 0 = 0x69 ∧
    (mkTxFrame 0x61 [9, 8]).getD 1 0 = 0x61 ∧
    (mkTxFrame 0x61 [9, 8]).getD 2 0 = 0 ∧
    (mkTxFrame 0x61 [9, 8]).getD 3 0 = 2 ∧
    (mkTxFrame 0x61 [9, 8]).getD (4 + 1) 0 = 8 ∧
    (mkTxFrame 0x61 [9, 8]).getD (4 + 2) 0 = 0 ∧
    (mkTxFrame 0x61 [9, 8]).getD 62 0 = crc16 ((mkTxFrame 0x61 [9, 8]).take 62) % 256 := by
  have h := usb_tx_frame_layout 0x61 [9, 8] (by decide) (by decide)
  exact ⟨h.1, h.2.1, h.2.2.1, h.2.2.2.1, h.2.2.2.2.1,
    h.2.2.2.2.2.1 1 (by decide), h.2.2.2.2.2.2.1 2 (by decide) (by decide),
    h.2.2.2.2.2.2.2.1⟩

theorem dispatchMsg_foldl (msg : Message) (cbs : List Callback) :
    ∀ (t0 : List (Nat × Nat × List Nat)) (f0 : Bool),
      cbs.foldl
        (fun acc cb =>
          if cb.cmd == msg.cmd then (acc.1 ++ [(cb.tag, msg.err, msg.payload)], false)
          else acc)
        (t0, f0) =
      (t0 ++ (cbs.filter (fun cb => cb.cmd == msg.cmd)).map
          (fun cb => (cb.tag, msg.err, msg.payload)),
        f0 && !(cbs.any (fun cb => cb.cmd == msg.cmd))) := by
  induction cbs with
  | nil => intro t0 f0; simp
  | cons cb rest ih =>
    intro t0 f0
    by_cases h : (cb.cmd == msg.cmd) = true
    · rw [List.foldl_cons, if_pos h, ih]
      simp [List.filter_cons_of_pos, h, List.any_cons]
    · have h' : (cb.cmd == msg.cmd) = false := by
        simp only [Bool.not_eq_true] at h
        exact h
      rw [List.foldl_cons, if_neg h, ih]
      simp [List.filter_cons_of_neg, h', List.any_cons]

theorem dispatchMsg_spec (cbs : List Callback) (msg : Message) :
    dispatchMsg cbs msg =
      ((cbs.filter (fun cb => cb.cmd == msg.cmd)).map (fun cb => (cb.tag, msg.err, msg.payload)),
        !(cbs.any (fun cb => cb.cmd == msg.cmd))) := by
  unfold dispatchMsg
  rw [dispatchMsg_foldl]
  simp

/-- C3 counterexample: with no callbacks registered and no transaction
pending, the dispatcher's handling of a frame is to block on the unbuffered
answer channel, not the drop-and-continue the specification describes. -/
theorem dispatcher_no_drop_counterexample :
    receiveStep [] false ⟨0x81, 0, [1]⟩ = ([], .blocked) ∧
    receiveStepSpec [] false ⟨0x81, 0, [1]⟩ = ([], .droppedSpec) ∧
    AfterDispatch.blocked ≠ AfterDispatch.droppedSpec := by decide

/-- C3 amended: every registered callback whose command equals the frame's
command is invoked with the frame's status byte and payload; when at least
one matched the frame is not forwarded as a reply; when none matched and a
transaction is pending the frame is forwarded to it; when none matched and
no transaction is pending the dispatcher blocks sending the frame on the
unbuffered answer channel, holding it for the next Transfer, rather than
dropping it. -/
theorem dispatcher_dispatch_behaviour (cbs : List Callback) (pending : Bool) (msg : Message) :
    (receiveStep cbs pending msg).1 =
      (cbs.filter (fun cb => cb.cmd == msg.cmd)).map (fun cb => (cb.tag, msg.err, msg.payload)) ∧
    (receiveStep cbs pending msg).2 =
      (if cbs.any (fun cb => cb.cmd == msg.cmd) then AfterDispatch.noForward
       else if pending then AfterDispatch.forwarded else AfterDispatch.blocked) := by
  unfold receiveStep
  rw [dispatchMsg_spec]
  refine ⟨rfl, ?_⟩
  by_cases h : cbs.any (fun cb => cb.cmd == msg.cmd) <;> simp [h]

/-- C4: before any Open the not-connected guard fires and Transfer fails
fast, but after Open followed by Close the `connected` flag is still set
(Close never clears it), so the guard does not fire and Transfer proceeds to
build and attempt the request instead of failing fast. -/
theorem close_keeps_connected_flag :
    notConnectedGuard bridgeInit = true ∧
    esbTransferBuild bridgeInit.connected [1, 2, 3, 4, 5] (some [7]) =
      EsbTransferResult.notConnected ∧
    (bridgeClose (bridgeOpenOk bridgeInit)).portOpen = false ∧
    notConnectedGuard (bridgeClose (bridgeOpenOk bridgeInit)) = false ∧
    esbTransferBuild (bridgeClose (bridgeOpenOk bridgeInit)).connected [1, 2, 3, 4, 5]
      (some [7]) = EsbTransferResult.sendReq ⟨0x30, 0, [1, 2, 3, 4, 5, 7]⟩ := by
  decide

/-- C5: the `return` in rxCallbackThread on a payload shorter than 6 bytes
terminates the goroutine: with a wildcard listener registered, a malformed
3-byte message followed by a well-formed message produces no deliveries at
all, whereas the well-formed message alone is decoded and delivered. -/
theorem rx_thread_short_payload_stops :
    rxCallbackThread [⟨List.replicate 5 0, 0xFF⟩]
      [⟨0x81, 0, [1, 2, 3]⟩, ⟨0x81, 0, [1, 2, 3, 4, 5, 6, 7]⟩] = [] ∧
    rxCallbackThread [⟨List.replicate 5 0, 0xFF⟩]
      [⟨0x81, 0, [1, 2, 3, 4, 5, 6, 7]⟩] = [(0, ⟨[1, 2, 3, 4, 5], 6, [7]⟩)] := by
  decide

/-- C6: an envelope is delivered to the listener registered at position i
exactly when the listener's source filter is the all-zero wildcard or equals
the envelope's source address, and its command filter is 0xFF or equals the
envelope's command; every matching listener receives it, regardless of
position. -/
theorem listener_match_delivery (ls : List Listener) (env : EsbMessage) (i : Nat)
    (l : Listener) (hi : ls[i]? = some l) :
    (i, env) ∈ sendToListeners ls env ↔
      ((l.sourceAddr = List.replicate 5 0 ∨ l.sourceAddr = env.address) ∧
        (l.cmd = 0xFF ∨ l.cmd = env.cmd)) := by
  simp only [sendToListeners, List.mem_map, List.mem_filter]
  constructor
  · rintro ⟨p, ⟨hpe, hpm⟩, hpeq⟩
    have h1 : p.1 = i := congrArg Prod.fst hpeq
    rw [List.mem_enum_iff_getElem?, h1, hi] at hpe
    have h2 : p.2 = l := by
      injection hpe with hh
      exact hh.symm
    rw [h2] at hpm
    simp only [listenerMatches, Bool.and_eq_true, Bool.or_eq_true, beq_iff_eq] at hpm
    tauto
  · rintro ⟨hsrc, hcmd⟩
    refine ⟨(i, l), ⟨List.mem_enum_iff_getElem?.mpr hi, ?_⟩, rfl⟩
    simp only [listenerMatches, Bool.and_eq_true, Bool.or_eq_true, beq_iff_eq]
    tauto

/-- C6 witness: two registered listeners, both with the wildcard address and
command filter 5; an envelope with command 5 from an arbitrary address is
delivered to the second listener as well. -/
theorem listener_match_delivery_witness :
    ([(⟨[1, 2, 3, 4, 5], 5⟩ : Listener), ⟨List.replicate 5 0, 5⟩][1]? =
      some ⟨List.replicate 5 0, 5⟩) ∧
    ((1, (⟨[9, 9, 9, 9, 9], 5, [7]⟩ : EsbMessage)) ∈
        sendToListeners [⟨[1, 2, 3, 4, 5], 5⟩, ⟨List.replicate 5 0, 5⟩] ⟨[9, 9, 9, 9, 9], 5, [7]⟩ ↔
      ((List.replicate 5 0 = List.replicate 5 0 ∨ List.replicate 5 0 = [9, 9, 9, 9, 9]) ∧
        ((5 : Nat) = 0xFF ∨ (5 : Nat) = 5))) :=
  ⟨by decide,
    listener_match_delivery [⟨[1, 2, 3, 4, 5], 5⟩, ⟨List.replicate 5 0, 5⟩]
      ⟨[9, 9, 9, 9, 9], 5, [7]⟩ 1 ⟨List.replicate 5 0, 5⟩ (by decide)⟩

/-- C7: a surfaced reply whose command differs from the request returns the
CmdMismatch error with zero status and nil payload; a matching reply returns
its status byte and payload without error; and after a transfer that ends in
CmdMismatch no stalled frame remains, so a subsequent unrelated transfer's
outcome is determined solely by its own command and its own answer. -/
theorem transfer_reply_correlation (c : Nat) (a b : Message) (s : ChanState)
    (hmis : a.cmd ≠ c) (hmatch : b.cmd = c) :
    transferReceive c (some a) = (0, none, some UsbErr.errCmdMismatch) ∧
    transferReceive c (some b) = (b.err, some b.payload, none) ∧
    (doTransfer s c (some a)).1.stalled = none ∧
    (∀ c2 ans2, (doTransfer (doTransfer s c (some a)).1 c2 ans2).2 =
      transferReceive c2 ans2) := by
  refine ⟨?_, ?_, ?_, ?_⟩
  · simp [transferReceive, hmis]
  · simp [transferReceive, hmatch]
  · rcases s with ⟨_ | m⟩ <;> rfl
  · intro c2 ans2
    rcases s with ⟨_ | m⟩ <;> rfl

/-- C7 witness at concrete inputs, including a stalled frame in the channel
state that the mismatching transfer consumes. -/
theorem transfer_reply_correlation_witness :
    transferReceive 0x61 (some ⟨0x10, 0, []⟩) = (0, none, some UsbErr.errCmdMismatch) ∧
    transferReceive 0x61 (some ⟨0x61, 2, [9]⟩) = (2, some [9], none) ∧
    (doTransfer ⟨some ⟨7, 1, [4]⟩⟩ 0x61 (some ⟨0x10, 0, []⟩)).1.stalled = none ∧
    (doTransfer (doTransfer ⟨some ⟨7, 1, [4]⟩⟩ 0x61 (some ⟨0x10, 0, []⟩)).1 0x30 none).2 =
      transferReceive 0x30 none := by
  have h := transfer_reply_correlation 0x61 ⟨0x10, 0, []⟩ ⟨0x61, 2, [9]⟩ ⟨some ⟨7, 1, [4]⟩⟩
    (by decide) (by decide)
  exact ⟨h.1, h.2.1, h.2.2.1, h.2.2.2 0x30 none⟩

/-- C8: the guard prefix of esbbridge Transfer on an open connection: a nil
payload, an empty payload, and a payload longer than 32 bytes each fail with
the corresponding parameter error before any frame is built, while every
payload of length 1 through 32 passes the checks and the outbound request is
the 5-byte target address followed by the payload under command 0x30. -/
theorem esb_transfer_bounds (addr p q : List Nat)
    (h1 : 1 ≤ p.length) (h32 : p.length ≤ 32) (hq : 32 < q.length) :
    esbTransferBuild true addr none = EsbTransferResult.nilPayload ∧
    esbTransferBuild true addr (some []) = EsbTransferResult.tooShort ∧
    esbTransferBuild true addr (some q) = EsbTransferResult.tooLong ∧
    esbTransferBuild true addr (some p) =
      EsbTransferResult.sendReq ⟨UsbCmdTransfer, 0, addr ++ p⟩ := by
  have hng : ¬(p.length > MaxPayloadSize) := by
    simp only [MaxPayloadSize]
    omega
  have hns : ¬(p.length < 1) := by omega
  have hqg : q.length > MaxPayloadSize := by
    simp only [MaxPayloadSize]
    omega
  refine ⟨rfl, rfl, ?_, ?_⟩
  · simp [esbTransferBuild, hqg]
  · simp [esbTransferBuild, hng, hns]

/-- C8 witness at concrete inputs. -/
theorem esb_transfer_bounds_witness :
    esbTransferBuild true [1, 2, 3, 4, 5] none = EsbTransferResult.nilPayload ∧
    esbTransferBuild true [1, 2, 3, 4, 5] (some []) = EsbTransferResult.tooShort ∧
    esbTransferBuild true [1, 2, 3, 4, 5] (some (List.replicate 33 0)) =
      EsbTransferResult.tooLong ∧
    esbTransferBuild true [1, 2, 3, 4, 5] (some [7]) =
      EsbTransferResult.sendReq ⟨UsbCmdTransfer, 0, [1, 2, 3, 4, 5, 7]⟩ :=
  esb_transfer_bounds [1, 2, 3, 4, 5] [7] (List.replicate 33 0)
    (by decide) (by decide) (by decide)

/-- C9 counterexample: a 64-byte frame with valid sync and a correct CRC but
a payload-length byte of 59 passes every check of the read loop and is
delivered to the dispatcher carrying a 59-byte payload, above the 58-byte
ceiling the claim asserts. -/
theorem read_accepts_oversized_len :
    payloadLenOf (serialReadFrame forgedFrame) = 59 ∧
    forgedFrame.getD 3 0 = 59 ∧ 58 < 59 := by
  have h62 : forgedBody.length = 62 := by
    simp [forgedBody]
  have hdivlt : crc16 forgedBody / 256 < 256 :=
    Nat.div_lt_of_lt_mul (by have := crc16_lt forgedBody; omega)
  have hxy : crc16 forgedBody =
      crc16 forgedBody % 256 + 256 * (crc16 forgedBody / 256 % 256) := by
    rw [Nat.mod_eq_of_lt hdivlt, Nat.mod_add_div]
  have hmain := serialReadFrame_append forgedBody
    (crc16 forgedBody % 256) (crc16 forgedBody / 256 % 256) h62 rfl (by decide) hxy
  refine ⟨?_, rfl, by norm_num⟩
  show payloadLenOf (serialReadFrame (forgedBody ++ _)) = 59
  rw [hmain]
  show (((forgedBody ++ _).drop 4).take (forgedBody.getD 3 0)).length = 59
  have hd : (forgedBody ++ [crc16 forgedBody % 256, crc16 forgedBody / 256 % 256]).drop 4 =
      List.replicate 58 0 ++ [crc16 forgedBody % 256, crc16 forgedBody / 256 % 256] := rfl
  rw [hd]
  simp only [List.length_take, List.length_append, List.length_replicate, List.length_cons,
    List.length_nil]
  decide

/-- C9 amended: the read loop's checks do not bound the payload-length byte
by 58; every delivered message's payload length equals the frame's length
byte, which is only guaranteed to be at most 60 — the bound comes from Go's
slice limit on the 64-byte buffer, not from a validation of the protocol
ceiling (a length byte above 60 makes the slice expression panic). -/
theorem read_payload_len_bound (frame : List Nat) (m : Message)
    (h : serialReadFrame frame = ReadResult.delivered m) :
    m.payload.length = frame.getD 3 0 ∧ frame.getD 3 0 ≤ 60 := by
  unfold serialReadFrame at h
  split_ifs at h with hc1 hc2 hc3
  rcases hsl : sliceGo frame 4 (4 + frame.getD 3 0) with _ | pl
  · rw [hsl] at h
    simp at h
  · rw [hsl] at h
    simp only [ReadResult.delivered.injEq] at h
    unfold sliceGo at hsl
    split_ifs at hsl with hcond
    · simp only [Option.some.injEq] at hsl
      have hlen64 : frame.length = 64 := not_ne_iff.mp hc1
      have hn : frame.getD 3 0 ≤ 60 := by
        have h2 := hcond.2
        omega
      refine ⟨?_, hn⟩
      rw [← h, ← hsl]
      simp only [List.length_take, List.length_drop, hlen64]
      omega

/-- C9 amended witness: the frame built for command 0x10 with empty payload
is delivered with payload length equal to its length byte, at most 60. -/
theorem read_payload_len_bound_witness :
    (([] : List Nat).length = (mkTxFrame 0x10 []).getD 3 0 ∧
      (mkTxFrame 0x10 []).getD 3 0 ≤ 60) :=
  read_payload_len_bound (mkTxFrame 0x10 []) ⟨0x10, 0, []⟩
    (by rw [mkTxFrame_read 0x10 [] (by norm_num)])

/-- C10 counterexample: usbprotocol Transfer contains no mutual-exclusion
mechanism, so from both callers idle the system reaches a state in which
caller A and caller B are simultaneously pending transactions. -/
theorem two_transfers_both_pending :
    TwoReach 0x61 0x10 ⟨Phase.pending, Phase.pending⟩ := by
  unfold TwoReach
  exact Relation.ReflTransGen.tail
    (Relation.ReflTransGen.single (TwoStep.startA Phase.idle))
    (TwoStep.startB Phase.pending)

/-- C10 amended: concurrent Transfer callers are not serialized — a state
with two simultaneously pending transactions is reachable — and the only
protection against receiving the other caller's reply is the command check:
a caller's result is error-free exactly when the reply it happened to
receive carries its own request command. -/
theorem no_transfer_serialization :
    TwoReach 0x61 0x10 ⟨Phase.pending, Phase.pending⟩ ∧
    (∀ (c : Nat) (m : Message), (transferReceive c (some m)).2.2 = none ↔ m.cmd = c) := by
  constructor
  · unfold TwoReach
    exact Relation.ReflTransGen.tail
      (Relation.ReflTransGen.single (TwoStep.startA Phase.idle))
      (TwoStep.startB Phase.pending)
  · intro c m
    by_cases h : m.cmd = c <;> simp [transferReceive, h]
